import Mathlib

/-!
Shallow embedding of the `pants` excerpt:
  * `src/python/pants/backend/kotlin/goals/tailor.py`
    (`classify_source_files`, `find_putative_targets`)
  * `src/python/pants/backend/plugin_development/pants_requirements.py`
    (`determine_version`, `generate_from_pants_requirements`)

File paths are embedded as lists of path segments: the string `"a/b/Foo.kt"`
becomes `["a", "b", "Foo.kt"]`.  Python `set`s become deduplicated Lean lists
(the membership set is what matters; iteration order of a Python set is
unspecified), and Python `dict`s become association lists in insertion order.
-/

set_option maxHeartbeats 1000000

/-- A file path, as its list of path segments. -/
abbrev SrcPath := List String

/-- Modelled from the spec: the directory key used by `group_by_dir` (imported by
the source from `pants.core.goals.tailor`, which is not part of the excerpt) is
"the path with its final path segment removed". -/
def dirnameOf (p : SrcPath) : List String :=
  p.dropLast

/-- Modelled from the spec: the file basename, i.e. the final path segment of a
path (the empty string for a degenerate empty path). -/
def basenameOf (p : SrcPath) : String :=
  (p.getLast?).getD ""

/-- Insert basename `b` into the bucket of directory `d` of the association list
`acc`, appending to an existing bucket or creating a new one at the end, exactly
as insertion into a Python `defaultdict` preserves first-seen key order. -/
def insertGrouped (acc : List (List String × List String)) (d : List String)
    (b : String) : List (List String × List String) :=
  match acc with
  | [] => [(d, [b])]
  | (d', bs) :: rest =>
    if d' = d then (d', bs ++ [b]) :: rest
    else (d', bs) :: insertGrouped rest d b

/-- Modelled from the spec: `group_by_dir` maps each containing directory to the
collection of file basenames of the given paths, grouping each path under the
directory obtained by removing its final segment. -/
def group_by_dir (paths : List SrcPath) : List (List String × List String) :=
  paths.foldl (fun acc p => insertGrouped acc (dirnameOf p) (basenameOf p)) []

/-- The declaration (target) types appearing in the excerpt.  The Kotlin tailor
rule classifies every source file as `KotlinSourcesGeneratorTarget`. -/
inductive TargetType
  | kotlinSourcesGenerator
deriving DecidableEq

/-- The synthesized output unit of the tailor rule: declaration type, containing
directory, optional declaration name, and triggering file basenames. -/
structure PutativeTarget where
  targetType : TargetType
  path : List String
  name : Option String
  triggering_sources : List String
deriving DecidableEq

/-- Modelled from the spec: `PutativeTarget.for_target_type` (imported from
`pants.core.goals.tailor`, not part of the excerpt) builds a putative
declaration from a target type, a directory path, an optional name and the
triggering sources, as the call site in `find_putative_targets` passes them. -/
def PutativeTarget.for_target_type (tgt_type : TargetType) (path : List String)
    (name : Option String) (triggering_sources : List String) : PutativeTarget :=
  ⟨tgt_type, path, name, triggering_sources⟩

/-- Embeds `classify_source_files` from `tailor.py`: takes the candidate paths,
forms the set `set(paths)` (here: `List.dedup`) and returns the one-entry dict
mapping `KotlinSourcesGeneratorTarget` to that set. -/
def classify_source_files (paths : List SrcPath) :
    List (TargetType × List SrcPath) :=
  [(TargetType.kotlinSourcesGenerator, paths.dedup)]

/-- Lexicographic strict comparison of character lists by code point, as Python
compares strings. -/
def charListLtB : List Char → List Char → Bool
  | _, [] => false
  | [], _ :: _ => true
  | a :: as, b :: bs =>
    if a.val < b.val then true
    else if b.val < a.val then false
    else charListLtB as bs

/-- Non-strict lexicographic comparison of strings by code point. -/
def strLeB (a b : String) : Bool :=
  !(charListLtB b.data a.data)

/-- Embeds Python `sorted` on file basenames: a stable sort by the lexicographic
code-point order on strings. -/
def sortStrings (l : List String) : List String :=
  l.insertionSort (fun a b => strLeB a b = true)

/-- The error side of the external path-resolution capability (`await Get(Paths,
PathGlobs, ...)`): an I/O-class failure carrying a message. -/
inductive ResolutionError
  | ioError (msg : String)
deriving DecidableEq

/-- Embeds line 43 of `tailor.py`:
`unowned_kotlin_files = set(all_kotlin_files.files) - set(all_owned_sources)`,
the plain set difference of the resolved path set and the owned path set. -/
def unowned_kotlin_files (files owned : List SrcPath) : List SrcPath :=
  files.dedup.filter (fun p => decide (p ∉ owned))

/-- Embeds the rule `find_putative_targets` from `tailor.py`.  The external glob
resolution is represented by its outcome: either a `ResolutionError` (which an
uncaught Python exception propagates, so the embedding returns `Except.error`)
or the concrete list of matching files.  On success: subtract the owned set,
classify, group each class by directory, and emit one `PutativeTarget` per
(type, directory) group with `name = none` and sorted triggering sources. -/
def find_putative_targets
    (all_kotlin_files : Except ResolutionError (List SrcPath))
    (all_owned_sources : List SrcPath) :
    Except ResolutionError (List PutativeTarget) :=
  match all_kotlin_files with
  | .error e => .error e
  | .ok files =>
    let unowned := unowned_kotlin_files files all_owned_sources
    let classified := classify_source_files unowned
    .ok (classified.flatMap (fun e =>
      (group_by_dir e.2).map (fun g =>
        PutativeTarget.for_target_type e.1 g.1 none (sortStrings g.2))))

/-- The paths a single putative declaration stands for: `directory/basename`
reconstructed for each triggering source. -/
def reconstructedPaths (t : PutativeTarget) : List SrcPath :=
  t.triggering_sources.map (fun b => t.path ++ [b])

/-- All paths reconstructed from a whole declaration sequence. -/
def allReconstructed (ts : List PutativeTarget) : List SrcPath :=
  ts.flatMap reconstructedPaths

/-- The paths represented by a directory grouping: `directory ++ [basename]`
for every basename in every bucket. -/
def groupedPaths (g : List (List String × List String)) : List SrcPath :=
  g.flatMap (fun e => e.2.map (fun b => e.1 ++ [b]))

/-- The keys (directories) of a directory grouping, in order. -/
def keysOf (g : List (List String × List String)) : List (List String) :=
  g.map Prod.fst

/-- The attributes of the `packaging.version.Version` object that
`pants_requirements.py` reads off the module global `PANTS_SEMVER` (the module
`pants.version` is not part of the excerpt): its string form, the `major` and
`minor` release numbers, and the `is_devrelease` flag.  The global is passed to
the embedded functions as an explicit parameter. -/
structure PantsVersion where
  text : String
  major : Nat
  minor : Nat
  is_devrelease : Bool
deriving DecidableEq

/-- Embeds `determine_version` from `pants_requirements.py`: the exact pin
`=={PANTS_SEMVER}` for a dev release, otherwise the range
`>={major}.{minor}.0a0,<{major}.{minor + 1}`. -/
def determine_version (v : PantsVersion) : String :=
  if v.is_devrelease then "==" ++ v.text
  else
    ">=" ++ toString v.major ++ "." ++ toString v.minor ++ ".0a0," ++
      "<" ++ toString v.major ++ "." ++ toString (v.minor + 1)

/-- The content of a generated `python_requirement` target, as the inner
`create_tgt` of `generate_from_pants_requirements` builds it: the one-element
requirement-string tuple `f"{dist}{version}"`, the one-element module tuple, and
the generated address name `dist`. -/
structure PythonRequirementTarget where
  requirements : List String
  modules : List String
  generated_name : String
deriving DecidableEq

/-- Embeds the inner `create_tgt` of `generate_from_pants_requirements`. -/
def create_tgt (version dist moduleName : String) : PythonRequirementTarget :=
  ⟨[dist ++ version], [moduleName], dist⟩

/-- Embeds `generate_from_pants_requirements`: one target for
`pantsbuild.pants`, plus one for `pantsbuild.pants.testutil` when the
generator's `testutil` field value is true. -/
def generate_from_pants_requirements (testutil : Bool) (v : PantsVersion) :
    List PythonRequirementTarget :=
  let version := determine_version v
  let result := [create_tgt version "pantsbuild.pants" "pants"]
  if testutil then
    result ++ [create_tgt version "pantsbuild.pants.testutil" "pants.testutil"]
  else result

instance : Subsingleton TargetType :=
  ⟨fun a b => by cases a; cases b; rfl⟩

example :
    group_by_dir [["a", "Foo.kt"], ["a", "Bar.kt"], ["b", "Baz.kt"]] =
      [(["a"], ["Foo.kt", "Bar.kt"]), (["b"], ["Baz.kt"])] := by rfl

example :
    find_putative_targets
      (Except.ok [["a", "Foo.kt"], ["a", "Bar.kt"], ["b", "Baz.kt"]]) [] =
      Except.ok
        [⟨TargetType.kotlinSourcesGenerator, ["a"], none, ["Bar.kt", "Foo.kt"]⟩,
         ⟨TargetType.kotlinSourcesGenerator, ["b"], none, ["Baz.kt"]⟩] := by rfl

example :
    find_putative_targets
      (Except.ok [["a", "Foo.kt"], ["a", "Bar.kt"], ["b", "Baz.kt"]])
      [["a", "Foo.kt"]] =
      Except.ok
        [⟨TargetType.kotlinSourcesGenerator, ["a"], none, ["Bar.kt"]⟩,
         ⟨TargetType.kotlinSourcesGenerator, ["b"], none, ["Baz.kt"]⟩] := by rfl

theorem dirnameOf_append_basenameOf {p : SrcPath} (h : p ≠ []) :
    dirnameOf p ++ [basenameOf p] = p := by
  rw [dirnameOf, basenameOf, List.getLast?_eq_getLast p h, Option.getD_some]
  exact List.dropLast_append_getLast h

theorem groupedPaths_cons (e : List String × List String)
    (g : List (List String × List String)) :
    groupedPaths (e :: g) = e.2.map (fun b => e.1 ++ [b]) ++ groupedPaths g := by
  simp [groupedPaths]

theorem groupedPaths_insertGrouped (acc : List (List String × List String))
    (d : List String) (b : String) :
    List.Perm (groupedPaths (insertGrouped acc d b)) ((d ++ [b]) :: groupedPaths acc) := by
  induction acc with
  | nil => simp [insertGrouped, groupedPaths]
  | cons e rest ih =>
    obtain ⟨d', bs⟩ := e
    by_cases h : d' = d
    · subst h
      rw [insertGrouped, if_pos rfl, groupedPaths_cons, groupedPaths_cons]
      simp only [List.map_append, List.map_cons, List.map_nil, List.append_assoc,
        List.singleton_append]
      exact List.perm_middle
    · rw [insertGrouped, if_neg h, groupedPaths_cons, groupedPaths_cons]
      exact (List.Perm.append_left _ ih).trans List.perm_middle

theorem groupedPaths_foldl (paths : List SrcPath) :
    ∀ acc, (∀ p ∈ paths, p ≠ []) →
      List.Perm
        (groupedPaths
          (paths.foldl (fun acc p => insertGrouped acc (dirnameOf p) (basenameOf p)) acc))
        (paths ++ groupedPaths acc) := by
  induction paths with
  | nil => intro acc _; simp
  | cons p ps ih =>
    intro acc h
    have hp : p ≠ [] := h p (List.mem_cons_self p ps)
    have hps : ∀ q ∈ ps, q ≠ [] := fun q hq => h q (List.mem_cons_of_mem p hq)
    rw [List.foldl_cons]
    refine (ih _ hps).trans ?_
    refine (List.Perm.append_left ps (groupedPaths_insertGrouped acc _ _)).trans ?_
    rw [dirnameOf_append_basenameOf hp, List.cons_append]
    exact List.perm_middle

theorem groupedPaths_group_by_dir (paths : List SrcPath)
    (h : ∀ p ∈ paths, p ≠ []) :
    List.Perm (groupedPaths (group_by_dir paths)) paths := by
  have := groupedPaths_foldl paths [] h
  simpa [group_by_dir, groupedPaths] using this

theorem mem_keysOf_insertGrouped (acc : List (List String × List String))
    (d : List String) (b : String) (x : List String) :
    x ∈ keysOf (insertGrouped acc d b) ↔ x ∈ keysOf acc ∨ x = d := by
  induction acc with
  | nil => simp [insertGrouped, keysOf]
  | cons e rest ih =>
    obtain ⟨d', bs⟩ := e
    by_cases h : d' = d
    · subst h
      simp [insertGrouped, keysOf]
      tauto
    · simp only [insertGrouped, if_neg h, keysOf, List.map_cons, List.mem_cons]
      rw [show (insertGrouped rest d b).map Prod.fst = keysOf (insertGrouped rest d b) from rfl,
        ih]
      rw [show rest.map Prod.fst = keysOf rest from rfl]
      tauto

theorem keysOf_insertGrouped_nodup (acc : List (List String × List String))
    (d : List String) (b : String) (h : (keysOf acc).Nodup) :
    (keysOf (insertGrouped acc d b)).Nodup := by
  induction acc with
  | nil => simp [insertGrouped, keysOf]
  | cons e rest ih =>
    obtain ⟨d', bs⟩ := e
    simp only [keysOf, List.map_cons, List.nodup_cons] at h
    by_cases hd : d' = d
    · subst hd
      rw [insertGrouped, if_pos rfl]
      simp only [keysOf, List.map_cons, List.nodup_cons]
      exact h
    · rw [insertGrouped, if_neg hd]
      simp only [keysOf, List.map_cons, List.nodup_cons]
      refine ⟨?_, ih h.2⟩
      intro hmem
      rcases (mem_keysOf_insertGrouped rest d b d').mp hmem with h1 | h1
      · exact h.1 h1
      · exact hd h1

theorem group_by_dir_keys_nodup (paths : List SrcPath) :
    (keysOf (group_by_dir paths)).Nodup := by
  suffices h : ∀ acc, (keysOf acc).Nodup →
      (keysOf
        (paths.foldl (fun acc p => insertGrouped acc (dirnameOf p) (basenameOf p)) acc)).Nodup by
    exact h [] (by simp [keysOf])
  induction paths with
  | nil => intro acc hacc; simpa using hacc
  | cons p ps ih =>
    intro acc hacc
    rw [List.foldl_cons]
    exact ih _ (keysOf_insertGrouped_nodup acc _ _ hacc)

theorem insertGrouped_snd_ne_nil (acc : List (List String × List String))
    (d : List String) (b : String) (h : ∀ g ∈ acc, g.2 ≠ []) :
    ∀ g ∈ insertGrouped acc d b, g.2 ≠ [] := by
  induction acc with
  | nil =>
    intro g hg
    simp only [insertGrouped, List.mem_singleton] at hg
    subst hg
    simp
  | cons e rest ih =>
    obtain ⟨d', bs⟩ := e
    intro g hg
    by_cases hd : d' = d
    · subst hd
      rw [insertGrouped, if_pos rfl] at hg
      rcases List.mem_cons.mp hg with rfl | hg'
      · simp
      · exact h g (List.mem_cons_of_mem _ hg')
    · rw [insertGrouped, if_neg hd] at hg
      rcases List.mem_cons.mp hg with rfl | hg'
      · exact h _ (List.mem_cons_self _ _)
      · exact ih (fun g' hg' => h g' (List.mem_cons_of_mem _ hg')) g hg'

theorem group_by_dir_snd_ne_nil (paths : List SrcPath) :
    ∀ g ∈ group_by_dir paths, g.2 ≠ [] := by
  suffices h : ∀ acc, (∀ g ∈ acc, g.2 ≠ []) →
      ∀ g ∈ paths.foldl (fun acc p => insertGrouped acc (dirnameOf p) (basenameOf p)) acc,
        g.2 ≠ [] by
    exact h [] (by simp)
  induction paths with
  | nil => intro acc hacc; simpa using hacc
  | cons p ps ih =>
    intro acc hacc
    rw [List.foldl_cons]
    exact ih _ (insertGrouped_snd_ne_nil acc _ _ hacc)

theorem unowned_kotlin_files_nodup (files owned : List SrcPath) :
    (unowned_kotlin_files files owned).Nodup :=
  (List.nodup_dedup files).filter _

theorem mem_unowned_kotlin_files (files owned : List SrcPath) (p : SrcPath) :
    p ∈ unowned_kotlin_files files owned ↔ p ∈ files ∧ p ∉ owned := by
  simp [unowned_kotlin_files, List.mem_filter, List.mem_dedup]

theorem find_putative_targets_ok_eq (files owned : List SrcPath)
    (ds : List PutativeTarget)
    (h : find_putative_targets (Except.ok files) owned = Except.ok ds) :
    ds = (group_by_dir (unowned_kotlin_files files owned)).map
      (fun g =>
        PutativeTarget.for_target_type TargetType.kotlinSourcesGenerator g.1 none
          (sortStrings g.2)) := by
  have hnd : (unowned_kotlin_files files owned).Nodup :=
    unowned_kotlin_files_nodup files owned
  simp only [find_putative_targets, classify_source_files,
    List.dedup_eq_self.mpr hnd, List.flatMap_cons, List.flatMap_nil,
    List.append_nil, Except.ok.injEq] at h
  exact h.symm

theorem allReconstructed_perm_unowned (files owned : List SrcPath)
    (hne : ∀ p ∈ files, p ≠ []) (ds : List PutativeTarget)
    (h : find_putative_targets (Except.ok files) owned = Except.ok ds) :
    List.Perm (allReconstructed ds) (unowned_kotlin_files files owned) := by
  rw [find_putative_targets_ok_eq files owned ds h]
  have hne' : ∀ p ∈ unowned_kotlin_files files owned, p ≠ [] := fun p hp =>
    hne p ((mem_unowned_kotlin_files files owned p).mp hp).1
  refine List.Perm.trans ?_ (groupedPaths_group_by_dir _ hne')
  rw [allReconstructed, List.flatMap_map]
  refine List.Perm.flatMap_left _ ?_
  intro g _
  exact (List.perm_insertionSort _ g.2).map _

/-- C2: `classify_source_files` is total: for every input collection of paths,
the value-union of the returned mapping equals the input set exactly, every
input path is classified into exactly one declaration type, and no path is
duplicated within a class. -/
theorem C2_classifier_total (paths : List SrcPath) :
    (∀ p, (∃ e ∈ classify_source_files paths, p ∈ e.2) ↔ p ∈ paths)
    ∧ (∀ p ∈ paths,
        (classify_source_files paths).countP (fun e => decide (p ∈ e.2)) = 1)
    ∧ ∀ e ∈ classify_source_files paths, e.2.Nodup := by
  refine ⟨?_, ?_, ?_⟩
  · intro p
    simp [classify_source_files, List.mem_dedup]
  · intro p hp
    simp [classify_source_files, List.countP_cons, List.mem_dedup, hp]
  · intro e he
    simp only [classify_source_files, List.mem_singleton] at he
    subst he
    exact List.nodup_dedup paths

/-- C2 witness: the classifier at a concrete two-path input. -/
theorem C2_classifier_total_witness :
    (∀ p, (∃ e ∈ classify_source_files [["a", "F.kt"], ["b", "G.kt"]], p ∈ e.2) ↔
        p ∈ [["a", "F.kt"], ["b", "G.kt"]])
    ∧ (∀ p ∈ [["a", "F.kt"], ["b", "G.kt"]],
        (classify_source_files [["a", "F.kt"], ["b", "G.kt"]]).countP
          (fun e => decide (p ∈ e.2)) = 1)
    ∧ ∀ e ∈ classify_source_files [["a", "F.kt"], ["b", "G.kt"]], e.2.Nodup :=
  C2_classifier_total [["a", "F.kt"], ["b", "G.kt"]]

/-- C4: if the glob resolution returns zero matching files, or every matching
file is already owned, then `find_putative_targets` returns an empty declaration
sequence. -/
theorem C4_empty_input (files owned : List SrcPath)
    (h : files = [] ∨ ∀ p ∈ files, p ∈ owned) :
    find_putative_targets (Except.ok files) owned = Except.ok [] := by
  have hu : unowned_kotlin_files files owned = [] := by
    rcases h with rfl | h
    · rfl
    · rw [unowned_kotlin_files, List.filter_eq_nil_iff]
      intro p hp
      rw [List.mem_dedup] at hp
      simp [h p hp]
  simp [find_putative_targets, hu, classify_source_files, group_by_dir]

/-- C4 witness: empty scan on the one side, full overlap on the other. -/
theorem C4_empty_input_witness :
    find_putative_targets (Except.ok []) [["x"]] = Except.ok []
    ∧ find_putative_targets (Except.ok [["a", "F.kt"]]) [["a", "F.kt"]] =
        Except.ok [] :=
  ⟨C4_empty_input [] [["x"]] (Or.inl rfl),
   C4_empty_input [["a", "F.kt"]] [["a", "F.kt"]] (Or.inr (by decide))⟩

/-- C8: a resolution error propagates unchanged with no declarations emitted,
and a successful resolution always yields a full declaration sequence (there is
no partial-success mode). -/
theorem C8_error_propagation :
    (∀ (e : ResolutionError) (owned : List SrcPath),
        find_putative_targets (Except.error e) owned = Except.error e)
    ∧ ∀ (files owned : List SrcPath),
        ∃ ds, find_putative_targets (Except.ok files) owned = Except.ok ds :=
  ⟨fun _ _ => rfl, fun _ _ => ⟨_, rfl⟩⟩

theorem countP_key_eq_one {α κ : Type} [DecidableEq κ] (key : α → κ) (l : List α)
    (h : (l.map key).Nodup) (a : α) (ha : a ∈ l) :
    l.countP (fun x => decide (key x = key a)) = 1 := by
  induction l with
  | nil => cases ha
  | cons e rest ih =>
    simp only [List.map_cons, List.nodup_cons] at h
    rcases List.mem_cons.mp ha with heq | ha'
    · rw [List.countP_cons_of_pos _ _ (by simp [heq])]
      have hz : rest.countP (fun x => decide (key x = key a)) = 0 := by
        rw [List.countP_eq_zero]
        intro x hx
        simp only [decide_eq_true_eq]
        intro hk
        have h2 : key x ∈ rest.map key := List.mem_map_of_mem key hx
        rw [hk, heq] at h2
        exact h.1 h2
      rw [hz]
    · have hk : ¬(key e = key a) := by
        intro hk
        have h2 : key a ∈ rest.map key := List.mem_map_of_mem key ha'
        rw [← hk] at h2
        exact h.1 h2
      rw [List.countP_cons_of_neg _ _ (by simpa using hk)]
      exact ih h.2 ha'

/-- C1: every reconstructed path `d/fi` of an emitted declaration was in the
unowned candidate set, every unowned candidate is reconstructed by exactly one
trigger occurrence across the emitted declarations, and at most one declaration
is emitted per (declaration-type, directory) pair. -/
theorem C1_directory_grouping (files owned : List SrcPath)
    (hne : ∀ p ∈ files, p ≠ []) (ds : List PutativeTarget)
    (hds : find_putative_targets (Except.ok files) owned = Except.ok ds) :
    (∀ t ∈ ds, ∀ b ∈ t.triggering_sources,
        t.path ++ [b] ∈ unowned_kotlin_files files owned)
    ∧ (∀ p ∈ unowned_kotlin_files files owned,
        (allReconstructed ds).countP (fun q => decide (q = p)) = 1)
    ∧ (ds.map (fun t => (t.targetType, t.path))).Nodup := by
  have hperm := allReconstructed_perm_unowned files owned hne ds hds
  refine ⟨?_, ?_, ?_⟩
  · intro t ht b hb
    have hmem : t.path ++ [b] ∈ allReconstructed ds := by
      rw [allReconstructed, List.mem_flatMap]
      exact ⟨t, ht, by rw [reconstructedPaths]; exact List.mem_map_of_mem _ hb⟩
    exact hperm.mem_iff.mp hmem
  · intro p hp
    rw [hperm.countP_eq (fun q => decide (q = p))]
    have hnd : ((unowned_kotlin_files files owned).map (fun x => x)).Nodup := by
      simpa using unowned_kotlin_files_nodup files owned
    exact countP_key_eq_one (fun x => x) _ hnd p hp
  · rw [find_putative_targets_ok_eq files owned ds hds, List.map_map]
    have hcomp :
        ((fun t : PutativeTarget => (t.targetType, t.path)) ∘
          (fun g : List String × List String =>
            PutativeTarget.for_target_type TargetType.kotlinSourcesGenerator g.1
              none (sortStrings g.2))) =
        ((fun d : List String => (TargetType.kotlinSourcesGenerator, d)) ∘
          Prod.fst) := rfl
    rw [hcomp, ← List.map_map]
    refine List.Nodup.map ?_ (group_by_dir_keys_nodup _)
    intro a b hab
    simpa using hab

/-- C1 witness: the grouping invariants at a concrete one-file scan. -/
theorem C1_directory_grouping_witness :
    (∀ t ∈ ([⟨TargetType.kotlinSourcesGenerator, ["a"], none, ["F.kt"]⟩] :
        List PutativeTarget),
      ∀ b ∈ t.triggering_sources,
        t.path ++ [b] ∈ unowned_kotlin_files [["a", "F.kt"]] [])
    ∧ (∀ p ∈ unowned_kotlin_files [["a", "F.kt"]] [],
        (allReconstructed
          ([⟨TargetType.kotlinSourcesGenerator, ["a"], none, ["F.kt"]⟩] :
            List PutativeTarget)).countP (fun q => decide (q = p)) = 1)
    ∧ (([⟨TargetType.kotlinSourcesGenerator, ["a"], none, ["F.kt"]⟩] :
        List PutativeTarget).map (fun t => (t.targetType, t.path))).Nodup :=
  C1_directory_grouping [["a", "F.kt"]] [] (by decide)
    [⟨TargetType.kotlinSourcesGenerator, ["a"], none, ["F.kt"]⟩] (by rfl)

/-- C3: re-running the scan with the same resolved set and the owned set
extended by every reconstructed trigger path of the first run's declarations
emits zero declarations. -/
theorem C3_idempotent_exclusion (files owned : List SrcPath)
    (hne : ∀ p ∈ files, p ≠ []) (ds : List PutativeTarget)
    (hds : find_putative_targets (Except.ok files) owned = Except.ok ds) :
    find_putative_targets (Except.ok files) (owned ++ allReconstructed ds) =
      Except.ok [] := by
  have hperm := allReconstructed_perm_unowned files owned hne ds hds
  have hu : unowned_kotlin_files files (owned ++ allReconstructed ds) = [] := by
    rw [unowned_kotlin_files, List.filter_eq_nil_iff]
    intro p hp
    rw [List.mem_dedup] at hp
    simp only [decide_eq_true_eq, Decidable.not_not]
    rw [List.mem_append]
    by_cases hpo : p ∈ owned
    · exact Or.inl hpo
    · exact Or.inr
        (hperm.mem_iff.mpr ((mem_unowned_kotlin_files files owned p).mpr ⟨hp, hpo⟩))
  simp [find_putative_targets, hu, classify_source_files, group_by_dir]

/-- C3 witness: a concrete one-file scan followed by the extended-ownership
re-scan. -/
theorem C3_idempotent_exclusion_witness :
    find_putative_targets (Except.ok [["a", "F.kt"]])
      ([] ++ allReconstructed
        ([⟨TargetType.kotlinSourcesGenerator, ["a"], none, ["F.kt"]⟩] :
          List PutativeTarget)) = Except.ok [] :=
  C3_idempotent_exclusion [["a", "F.kt"]] [] (by decide)
    [⟨TargetType.kotlinSourcesGenerator, ["a"], none, ["F.kt"]⟩] (by rfl)

/-- C5: the candidate set passed to classification is the plain set difference
of the resolved set and the owned set, and no owned path is reconstructed among
any emitted declaration's triggers. -/
theorem C5_unowned_set_difference (files owned : List SrcPath)
    (hne : ∀ p ∈ files, p ≠ []) (ds : List PutativeTarget)
    (hds : find_putative_targets (Except.ok files) owned = Except.ok ds) :
    (∀ p, p ∈ unowned_kotlin_files files owned ↔ p ∈ files ∧ p ∉ owned)
    ∧ ∀ t ∈ ds, ∀ b ∈ t.triggering_sources, t.path ++ [b] ∉ owned := by
  have hperm := allReconstructed_perm_unowned files owned hne ds hds
  refine ⟨fun p => mem_unowned_kotlin_files files owned p, ?_⟩
  intro t ht b hb
  have hmem : t.path ++ [b] ∈ allReconstructed ds := by
    rw [allReconstructed, List.mem_flatMap]
    exact ⟨t, ht, by rw [reconstructedPaths]; exact List.mem_map_of_mem _ hb⟩
  exact ((mem_unowned_kotlin_files files owned _).mp (hperm.mem_iff.mp hmem)).2

/-- C5 witness: the set-difference characterisation at a concrete scan with one
owned and one unowned file. -/
theorem C5_unowned_set_difference_witness :
    (∀ p, p ∈ unowned_kotlin_files [["a", "F.kt"], ["a", "G.kt"]] [["a", "G.kt"]] ↔
        p ∈ [["a", "F.kt"], ["a", "G.kt"]] ∧ p ∉ [["a", "G.kt"]])
    ∧ ∀ t ∈ ([⟨TargetType.kotlinSourcesGenerator, ["a"], none, ["F.kt"]⟩] :
        List PutativeTarget),
      ∀ b ∈ t.triggering_sources, t.path ++ [b] ∉ [["a", "G.kt"]] :=
  C5_unowned_set_difference [["a", "F.kt"], ["a", "G.kt"]] [["a", "G.kt"]]
    (by decide) [⟨TargetType.kotlinSourcesGenerator, ["a"], none, ["F.kt"]⟩]
    (by rfl)

/-- C6: every (declaration-type, directory, filenames) group has non-empty
filenames and gives rise to exactly one emitted declaration, whose name is
`none` and whose triggering sources are the sorted basenames of the group. -/
theorem C6_one_declaration_per_group (files owned : List SrcPath)
    (ds : List PutativeTarget)
    (hds : find_putative_targets (Except.ok files) owned = Except.ok ds) :
    (∀ e ∈ classify_source_files (unowned_kotlin_files files owned),
      ∀ g ∈ group_by_dir e.2,
        g.2 ≠ [] ∧
        PutativeTarget.for_target_type e.1 g.1 none (sortStrings g.2) ∈ ds ∧
        ds.countP (fun t => decide (t.targetType = e.1 ∧ t.path = g.1)) = 1)
    ∧ ∀ t ∈ ds, t.name = none := by
  have hok := find_putative_targets_ok_eq files owned ds hds
  have hnd : (unowned_kotlin_files files owned).Nodup :=
    unowned_kotlin_files_nodup files owned
  constructor
  · intro e he g hg
    rw [classify_source_files, List.dedup_eq_self.mpr hnd, List.mem_singleton] at he
    subst he
    refine ⟨group_by_dir_snd_ne_nil _ g hg, ?_, ?_⟩
    · rw [hok]
      exact List.mem_map_of_mem _ hg
    · rw [hok]
      have hkeys :
          (((group_by_dir (unowned_kotlin_files files owned)).map
            (fun g =>
              PutativeTarget.for_target_type TargetType.kotlinSourcesGenerator g.1
                none (sortStrings g.2))).map PutativeTarget.path).Nodup := by
        rw [List.map_map]
        exact group_by_dir_keys_nodup _
      exact Eq.trans
        (List.countP_congr
          (fun t _ => by
            simp [PutativeTarget.for_target_type, eq_iff_true_of_subsingleton]))
        (countP_key_eq_one PutativeTarget.path _ hkeys
          (PutativeTarget.for_target_type TargetType.kotlinSourcesGenerator g.1
            none (sortStrings g.2))
          (List.mem_map_of_mem _ hg))
  · intro t ht
    rw [hok] at ht
    rcases List.mem_map.mp ht with ⟨g, _, rfl⟩
    rfl

/-- C6 witness: the per-group uniqueness at a concrete one-file scan. -/
theorem C6_one_declaration_per_group_witness :
    (∀ e ∈ classify_source_files (unowned_kotlin_files [["a", "F.kt"]] []),
      ∀ g ∈ group_by_dir e.2,
        g.2 ≠ [] ∧
        PutativeTarget.for_target_type e.1 g.1 none (sortStrings g.2) ∈
          ([⟨TargetType.kotlinSourcesGenerator, ["a"], none, ["F.kt"]⟩] :
            List PutativeTarget) ∧
        ([⟨TargetType.kotlinSourcesGenerator, ["a"], none, ["F.kt"]⟩] :
            List PutativeTarget).countP
          (fun t => decide (t.targetType = e.1 ∧ t.path = g.1)) = 1)
    ∧ ∀ t ∈ ([⟨TargetType.kotlinSourcesGenerator, ["a"], none, ["F.kt"]⟩] :
        List PutativeTarget), t.name = none :=
  C6_one_declaration_per_group [["a", "F.kt"]] []
    [⟨TargetType.kotlinSourcesGenerator, ["a"], none, ["F.kt"]⟩] (by rfl)

/-- C7: the emitted sequence is the concatenation, over the classification
mapping in order, of the per-type blocks: its list of declaration types is the
flattening of one constant block per classification entry, so declarations of
one type are contiguous and blocks follow classification order. -/
theorem C7_contiguous_by_type (files owned : List SrcPath)
    (ds : List PutativeTarget)
    (hds : find_putative_targets (Except.ok files) owned = Except.ok ds) :
    ds.map (fun t => t.targetType) =
      (classify_source_files (unowned_kotlin_files files owned)).flatMap
        (fun e => List.replicate (group_by_dir e.2).length e.1) := by
  have hnd : (unowned_kotlin_files files owned).Nodup :=
    unowned_kotlin_files_nodup files owned
  rw [find_putative_targets_ok_eq files owned ds hds, List.map_map]
  simp only [classify_source_files, List.dedup_eq_self.mpr hnd, List.flatMap_cons,
    List.flatMap_nil, List.append_nil]
  exact List.map_const' _ _

/-- C7 witness: the block structure at a concrete two-directory scan. -/
theorem C7_contiguous_by_type_witness :
    ([⟨TargetType.kotlinSourcesGenerator, ["a"], none, ["F.kt"]⟩,
      ⟨TargetType.kotlinSourcesGenerator, ["b"], none, ["G.kt"]⟩] :
        List PutativeTarget).map (fun t => t.targetType) =
      (classify_source_files
        (unowned_kotlin_files [["a", "F.kt"], ["b", "G.kt"]] [])).flatMap
        (fun e => List.replicate (group_by_dir e.2).length e.1) :=
  C7_contiguous_by_type [["a", "F.kt"], ["b", "G.kt"]] []
    [⟨TargetType.kotlinSourcesGenerator, ["a"], none, ["F.kt"]⟩,
     ⟨TargetType.kotlinSourcesGenerator, ["b"], none, ["G.kt"]⟩] (by rfl)

/-- C9: `determine_version` is a pure function of `PANTS_SEMVER`, returns the
exact pin `==<version>` exactly when the version is a dev release, and otherwise
returns the range `>=<major>.<minor>.0a0,<<major>.<minor + 1>`. -/
theorem C9_determine_version (v : PantsVersion) :
    (determine_version v = "==" ++ v.text ↔ v.is_devrelease = true)
    ∧ (v.is_devrelease = false →
        determine_version v =
          ">=" ++ toString v.major ++ "." ++ toString v.minor ++ ".0a0," ++
            "<" ++ toString v.major ++ "." ++ toString (v.minor + 1)) := by
  cases hv : v.is_devrelease
  case true =>
    refine ⟨⟨fun _ => rfl, fun _ => by simp [determine_version, hv]⟩, ?_⟩
    intro h
    exact absurd h (by decide)
  case false =>
    refine ⟨⟨?_, ?_⟩, fun _ => by simp [determine_version, hv]⟩
    · intro h
      rw [determine_version, hv] at h
      simp only [Bool.false_eq_true, if_false] at h
      exfalso
      have h2 := congrArg (fun s : String => s.data.head?) h
      have h3 : (some '>' : Option Char) = some '=' := h2
      exact absurd (Option.some.inj h3) (by decide)
    · intro h
      exact absurd h (by decide)

/-- C9 witness: the non-dev branch at a concrete stable version. -/
theorem C9_determine_version_witness :
    (determine_version ⟨"2.16.0", 2, 16, false⟩ = "==" ++ "2.16.0" ↔
        false = true)
    ∧ (false = false →
        determine_version ⟨"2.16.0", 2, 16, false⟩ =
          ">=" ++ toString 2 ++ "." ++ toString 16 ++ ".0a0," ++
            "<" ++ toString 2 ++ "." ++ toString (16 + 1)) :=
  C9_determine_version ⟨"2.16.0", 2, 16, false⟩

/-- C10: the generated targets are exactly one for `pantsbuild.pants`, plus one
for `pantsbuild.pants.testutil` exactly when the `testutil` field is true; every
target's requirement string is its distribution name followed by
`determine_version`, and the result has exactly one or exactly two targets. -/
theorem C10_generated_targets (testutil : Bool) (v : PantsVersion) :
    ((generate_from_pants_requirements testutil v).countP
        (fun t => decide (t.generated_name = "pantsbuild.pants")) = 1)
    ∧ ((∃ t ∈ generate_from_pants_requirements testutil v,
          t.generated_name = "pantsbuild.pants.testutil") ↔ testutil = true)
    ∧ (∀ t ∈ generate_from_pants_requirements testutil v,
        (t.generated_name = "pantsbuild.pants" ∨
          t.generated_name = "pantsbuild.pants.testutil")
        ∧ t.requirements = [t.generated_name ++ determine_version v])
    ∧ ((generate_from_pants_requirements testutil v).length = 1 ∨
        (generate_from_pants_requirements testutil v).length = 2) := by
  have hne : ("pantsbuild.pants" : String) ≠ "pantsbuild.pants.testutil" := by
    decide
  have hne2 : ("pantsbuild.pants.testutil" : String) ≠ "pantsbuild.pants" :=
    hne.symm
  cases testutil
  case false =>
    refine ⟨?_, ?_, ?_, ?_⟩
    · simp [generate_from_pants_requirements, create_tgt]
    · simp [generate_from_pants_requirements, create_tgt, hne]
    · intro t ht
      simp only [generate_from_pants_requirements, create_tgt,
        Bool.false_eq_true, if_false, List.mem_singleton] at ht
      subst ht
      exact ⟨Or.inl rfl, rfl⟩
    · left
      rfl
  case true =>
    refine ⟨?_, ?_, ?_, ?_⟩
    · simp [generate_from_pants_requirements, create_tgt, hne2,
        List.countP_cons]
    · simp [generate_from_pants_requirements, create_tgt]
    · intro t ht
      simp only [generate_from_pants_requirements, create_tgt, if_true,
        List.singleton_append, List.cons_append, List.nil_append, List.mem_append,
        List.mem_cons, List.mem_singleton, List.not_mem_nil, or_false] at ht
      rcases ht with rfl | rfl
      · exact ⟨Or.inl rfl, rfl⟩
      · exact ⟨Or.inr rfl, rfl⟩
    · right
      rfl

/-- C10 witness: the generated-target set with `testutil` enabled at a concrete
version. -/
theorem C10_generated_targets_witness :
    ((generate_from_pants_requirements true ⟨"2.16.0", 2, 16, false⟩).countP
        (fun t => decide (t.generated_name = "pantsbuild.pants")) = 1)
    ∧ ((∃ t ∈ generate_from_pants_requirements true ⟨"2.16.0", 2, 16, false⟩,
          t.generated_name = "pantsbuild.pants.testutil") ↔ true = true)
    ∧ (∀ t ∈ generate_from_pants_requirements true ⟨"2.16.0", 2, 16, false⟩,
        (t.generated_name = "pantsbuild.pants" ∨
          t.generated_name = "pantsbuild.pants.testutil")
        ∧ t.requirements =
            [t.generated_name ++ determine_version ⟨"2.16.0", 2, 16, false⟩])
    ∧ ((generate_from_pants_requirements true ⟨"2.16.0", 2, 16, false⟩).length = 1 ∨
        (generate_from_pants_requirements true ⟨"2.16.0", 2, 16, false⟩).length = 2) :=
  C10_generated_targets true ⟨"2.16.0", 2, 16, false⟩
